import Mathlib

/-!
Shallow embedding of the API 682 seal-selection tool (src/app.py).

Numbers entered through the UI (pressure in bar, temperature in degrees C,
shaft speed in m/s) are modelled as rationals; Python booleans as `Bool`;
Python strings as `String`.  Because `get_arrangement` can return either a
Python `int` (1, 2 or 3) or whatever value was passed as
`mandated_arrangement` (the UI supplies `None` or the strings
"Arrangement 1/2/3"), its result type is modelled by the dynamic value type
`PyVal` together with Python truthiness.
-/

/-- Python's `needle in hay` substring test on lists of characters. -/
def listContains (needle : List Char) : List Char → Bool
  | [] => List.isPrefixOf needle []
  | c :: rest => List.isPrefixOf needle (c :: rest) || listContains needle rest

/-- Python's `needle in hay` substring test on strings. -/
def strIn (needle hay : String) : Bool := listContains needle.data hay.data

/-- One row of the `CATEGORY_LIMITS` table (src/app.py, lines 11-15). -/
structure CatLimits where
  pressure : ℚ
  temp : ℚ
  speed : ℚ
deriving DecidableEq

/-- The `CATEGORY_LIMITS` dict (src/app.py, lines 11-15).  The Python dict
only holds keys 1, 2, 3; other keys would raise `KeyError` and are never
looked up by the program, so the catch-all row is unreachable. -/
def CATEGORY_LIMITS : Nat → CatLimits
  | 1 => ⟨20, 260, 20⟩
  | 2 => ⟨40, 400, 25⟩
  | 3 => ⟨100, 400, 25⟩
  | _ => ⟨0, 0, 0⟩

/-- The loop-body test of `get_seal_category`: all three operating values
are at most the limits of category `cat` (src/app.py, lines 21-23). -/
def withinCat (cat : Nat) (pressure temperature speed : ℚ) : Bool :=
  decide (pressure ≤ (CATEGORY_LIMITS cat).pressure) &&
  decide (temperature ≤ (CATEGORY_LIMITS cat).temp) &&
  decide (speed ≤ (CATEGORY_LIMITS cat).speed)

/-- `get_seal_category` (src/app.py, lines 18-25): the `for cat in [1,2,3]`
loop with early `return cat` is the first element of `[1,2,3]` passing the
limit test; the final `return None` is the `none` of `List.find?`. -/
def get_seal_category (pressure temperature speed : ℚ) : Option Nat :=
  [1, 2, 3].find? (fun cat => withinCat cat pressure temperature speed)

/-- `get_fluid_type_group` (src/app.py, lines 27-31). -/
def get_fluid_type_group (fluid_type : String) (is_flashing : Bool) : String :=
  if fluid_type = "Hydrocarbon" then
    if is_flashing then "Flashing Hydrocarbon" else "Nonflashing Hydrocarbon"
  else "Nonhydrocarbon"

/-- The `contaminants` dict built at src/app.py, lines 167-170. -/
structure Contaminants where
  caustic : Bool
  h2s : Bool
  amines : Bool
  ammonia : Bool
  abrasive : Bool
deriving DecidableEq

/-- Python's `any(contaminants.values())` (src/app.py, line 74);
`values()` iterates in insertion order caustic, h2s, amines, ammonia,
abrasive. -/
def anyContaminants (c : Contaminants) : Bool :=
  c.caustic || c.h2s || c.amines || c.ammonia || c.abrasive

/-- `get_seal_type` (src/app.py, lines 33-62).  The `category` and
`contaminants` parameters are accepted but never read by the body, exactly
as in the source. -/
def get_seal_type (fluid_group : String) (temp pressure : ℚ)
    (category : Option Nat) (contaminants : Contaminants) : String :=
  if fluid_group = "Nonhydrocarbon" then
    if temp < 80 then
      if pressure < 20 then "Type B" else "Engineered System"
    else "Engineered System"
  else if strIn "Hydrocarbon" fluid_group then
    if strIn "Nonflashing" fluid_group then
      if temp < 176 then
        if pressure < 20 then "Type A" else "Type C"
      else if temp < 280 then
        if pressure < 20 then "Type C" else "Engineered System"
      else "Engineered System"
    else
      if temp < 176 then
        if pressure < 20 then "Type A" else "Type C"
      else if temp < 260 then
        if pressure < 20 then "Type C" else "Engineered System"
      else "Engineered System"
  else "Type A"

/-- A dynamically typed Python value, as far as the arrangement logic needs
one: the `None` default, an `int`, or a `str` (the UI's selectbox hands the
literal option strings to `get_arrangement`). -/
inductive PyVal where
  | none : PyVal
  | int (n : ℤ) : PyVal
  | str (s : String) : PyVal
deriving DecidableEq

/-- Python truthiness for the `if mandated_arrangement:` test
(src/app.py, line 70): `None` is falsy, an `int` is truthy iff nonzero,
a `str` is truthy iff nonempty. -/
def truthy : PyVal → Bool
  | PyVal.none => false
  | PyVal.int n => decide (n ≠ 0)
  | PyVal.str s => decide (s ≠ "")

/-- `get_arrangement` (src/app.py, lines 64-94).  In the source,
`contaminants` is NOT a parameter: the body reads the module-level
`contaminants` dict of lines 167-170 as a free (global) variable.  The
shallow embedding passes that ambient dict as the explicit final
argument. -/
def get_arrangement (fluid_group : String)
    (exposure_hazard vapor_risk environmental_limits solids polymerizing
      poor_lubricity low_density high_vapor_pressure : Bool)
    (temp : ℚ) (zero_leakage : Bool) (mandated_arrangement : PyVal)
    (contaminants : Contaminants) : PyVal :=
  if truthy mandated_arrangement = true then mandated_arrangement
  else if fluid_group = "Nonhydrocarbon" ∧ anyContaminants contaminants = true then
    PyVal.int 3
  else if zero_leakage = true ∨ exposure_hazard = true ∨ vapor_risk = true ∨
      environmental_limits = true ∨ temp > 260 ∨ solids = true ∨
      polymerizing = true ∨ poor_lubricity = true ∨ low_density = true ∨
      high_vapor_pressure = true then
    PyVal.int 3
  else if solids = true ∨ polymerizing = true ∨ poor_lubricity = true ∨
      low_density = true ∨ high_vapor_pressure = true then
    PyVal.int 2
  else PyVal.int 1

/-- `get_barrier_fluid_recommendation` (src/app.py, lines 96-106). -/
def get_barrier_fluid_recommendation (fluid_type temp_range : String) : String :=
  if strIn "Hydrocarbon" fluid_type then
    if temp_range = "Low" then "Mineral oil (2-10 cSt at operating temp)"
    else if temp_range = "Medium" then "Paraffin-based high purity oil"
    else "Synthetic-based oil"
  else "Water/ethylene glycol mixture (commercial antifreeze prohibited)"

/-- One full set of UI inputs (src/app.py, lines 116-162): every widget
value the evaluation at lines 165-182 can read.  `mandated_arrangement`
holds what the selectbox returns: Python `None` or one of the strings
"Arrangement 1", "Arrangement 2", "Arrangement 3". -/
structure Inputs where
  pressure : ℚ
  temperature : ℚ
  speed : ℚ
  fluid_type : String
  is_flashing : Bool
  hazardous : Bool
  toxic : Bool
  flammable : Bool
  abrasive : Bool
  polymerizing : Bool
  poor_lubricity : Bool
  caustic : Bool
  h2s : Bool
  amines : Bool
  ammonia : Bool
  exposure_hazard : Bool
  vapor_risk : Bool
  environmental_limits : Bool
  monitoring_required : Bool
  zero_leakage : Bool
  low_density : Bool
  high_vapor_pressure : Bool
  mandated_arrangement : PyVal
deriving DecidableEq

/-- `category = get_seal_category(...)` (src/app.py, line 165). -/
def categoryOf (i : Inputs) : Option Nat :=
  get_seal_category i.pressure i.temperature i.speed

/-- `fluid_group = get_fluid_type_group(...)` (src/app.py, line 166). -/
def fluidGroupOf (i : Inputs) : String :=
  get_fluid_type_group i.fluid_type i.is_flashing

/-- The `contaminants` dict (src/app.py, lines 167-170). -/
def contaminantsOf (i : Inputs) : Contaminants :=
  ⟨i.caustic, i.h2s, i.amines, i.ammonia, i.abrasive⟩

/-- `seal_type = get_seal_type(...)` (src/app.py, lines 171-173). -/
def sealTypeOf (i : Inputs) : String :=
  get_seal_type (fluidGroupOf i) i.temperature i.pressure (categoryOf i)
    (contaminantsOf i)

/-- `arrangement = get_arrangement(...)` (src/app.py, lines 174-178), with
the module-level `contaminants` dict the body reads passed explicitly. -/
def arrangementOf (i : Inputs) : PyVal :=
  get_arrangement (fluidGroupOf i) i.exposure_hazard i.vapor_risk
    i.environmental_limits i.abrasive i.polymerizing i.poor_lubricity
    i.low_density i.high_vapor_pressure i.temperature i.zero_leakage
    i.mandated_arrangement (contaminantsOf i)

/-- `temp_range = ...` (src/app.py, line 181). -/
def tempRangeOf (temperature : ℚ) : String :=
  if temperature < 70 then "Low"
  else if temperature < 150 then "Medium"
  else "High"

/-- `barrier_fluid = ... if arrangement in [2, 3] else "Not required"`
(src/app.py, line 182).  Python's `in [2, 3]` is equality against the
`int`s 2 and 3, which a `str` arrangement never satisfies. -/
def barrierFluidOf (i : Inputs) : String :=
  if arrangementOf i = PyVal.int 2 ∨ arrangementOf i = PyVal.int 3 then
    get_barrier_fluid_recommendation i.fluid_type (tempRangeOf i.temperature)
  else "Not required"

/-!  Spec-side transcriptions, used only to compare against the embedded
code in refinement theorems. -/

/-- Transcription of the seal-type branch tables as the spec and claim C2
state them (spec section 4.3), written from the spec's words for
comparison with `get_seal_type`. -/
def sealTypeSpec (fluid_group : String) (temp pressure : ℚ) : String :=
  if fluid_group = "Nonhydrocarbon" then
    if temp < 80 then
      if pressure < 20 then "Type B" else "Engineered System"
    else "Engineered System"
  else if fluid_group = "Nonflashing Hydrocarbon" then
    if temp < 176 then
      if pressure < 20 then "Type A" else "Type C"
    else if temp < 280 then
      if pressure < 20 then "Type C" else "Engineered System"
    else "Engineered System"
  else if fluid_group = "Flashing Hydrocarbon" then
    if temp < 176 then
      if pressure < 20 then "Type A" else "Type C"
    else if temp < 260 then
      if pressure < 20 then "Type C" else "Engineered System"
    else "Engineered System"
  else "Type A"

/-- Transcription of the ordered arrangement rules 2-5 as claim C3 and
spec section 4.4 state them (rule 1, the mandate, is handled separately),
written from the spec's words for comparison with `get_arrangement`. -/
def arrangementRulesSpec (fluid_group : String)
    (exposure_hazard vapor_risk environmental_limits solids polymerizing
      poor_lubricity low_density high_vapor_pressure : Bool)
    (temp : ℚ) (zero_leakage : Bool) (contaminants : Contaminants) : ℤ :=
  if fluid_group = "Nonhydrocarbon" ∧
      (contaminants.caustic = true ∨ contaminants.h2s = true ∨
        contaminants.amines = true ∨ contaminants.ammonia = true ∨
        contaminants.abrasive = true) then 3
  else if zero_leakage = true ∨ exposure_hazard = true ∨ vapor_risk = true ∨
      environmental_limits = true ∨ temp > 260 ∨ solids = true ∨
      polymerizing = true ∨ poor_lubricity = true ∨ low_density = true ∨
      high_vapor_pressure = true then 3
  else if solids = true ∨ polymerizing = true ∨ poor_lubricity = true ∨
      low_density = true ∨ high_vapor_pressure = true then 2
  else 1

/-- C9: `get_fluid_type_group` maps Hydrocarbon+flashing to
"Flashing Hydrocarbon", Hydrocarbon+non-flashing to
"Nonflashing Hydrocarbon", and Nonhydrocarbon to "Nonhydrocarbon" for
either value of the flashing flag. -/
theorem fluid_group_mapping (b : Bool) :
    get_fluid_type_group "Hydrocarbon" true = "Flashing Hydrocarbon" ∧
    get_fluid_type_group "Hydrocarbon" false = "Nonflashing Hydrocarbon" ∧
    get_fluid_type_group "Nonhydrocarbon" b = "Nonhydrocarbon" := by
  cases b <;> exact ⟨by decide, by decide, by decide⟩

/-- C2: for each of the three fluid groups produced by
`get_fluid_type_group`, and for all temperatures, pressures and values of
the unused `category` and `contaminants` parameters, `get_seal_type`
follows the spec's branch tables (all comparisons strict, boundary values
falling to the next bracket). -/
theorem seal_type_follows_branch_tables (temp pressure : ℚ)
    (category : Option Nat) (contaminants : Contaminants) :
    get_seal_type "Nonhydrocarbon" temp pressure category contaminants =
      sealTypeSpec "Nonhydrocarbon" temp pressure ∧
    get_seal_type "Nonflashing Hydrocarbon" temp pressure category contaminants =
      sealTypeSpec "Nonflashing Hydrocarbon" temp pressure ∧
    get_seal_type "Flashing Hydrocarbon" temp pressure category contaminants =
      sealTypeSpec "Flashing Hydrocarbon" temp pressure := by
  have hNfNe : ("Nonflashing Hydrocarbon" : String) ≠ "Nonhydrocarbon" := by decide
  have hFlNe : ("Flashing Hydrocarbon" : String) ≠ "Nonhydrocarbon" := by decide
  have hFlNf : ("Flashing Hydrocarbon" : String) ≠ "Nonflashing Hydrocarbon" := by
    decide
  have hIn1 : strIn "Hydrocarbon" "Nonflashing Hydrocarbon" = true := by decide
  have hIn2 : strIn "Nonflashing" "Nonflashing Hydrocarbon" = true := by decide
  have hIn3 : strIn "Hydrocarbon" "Flashing Hydrocarbon" = true := by decide
  have hIn4 : strIn "Nonflashing" "Flashing Hydrocarbon" = false := by decide
  refine ⟨?_, ?_, ?_⟩ <;>
    simp [get_seal_type, sealTypeSpec, hNfNe, hFlNe, hFlNf, hIn1, hIn2, hIn3, hIn4]

/-- C3: with no mandated arrangement (`None` passed), `get_arrangement`
computes exactly the ordered first-match rule list of the claim:
Nonhydrocarbon with any contaminant gives 3; any severe flag, or
temperature above 260, gives 3; any of the five fluid-behaviour flags
gives 2; otherwise 1. -/
theorem arrangement_rules_without_mandate (fluid_group : String)
    (exposure_hazard vapor_risk environmental_limits solids polymerizing
      poor_lubricity low_density high_vapor_pressure : Bool)
    (temp : ℚ) (zero_leakage : Bool) (contaminants : Contaminants) :
    get_arrangement fluid_group exposure_hazard vapor_risk environmental_limits
        solids polymerizing poor_lubricity low_density high_vapor_pressure
        temp zero_leakage PyVal.none contaminants =
      PyVal.int (arrangementRulesSpec fluid_group exposure_hazard vapor_risk
        environmental_limits solids polymerizing poor_lubricity low_density
        high_vapor_pressure temp zero_leakage contaminants) := by
  have e1 : (fluid_group = "Nonhydrocarbon" ∧
        anyContaminants contaminants = true) ↔
      (fluid_group = "Nonhydrocarbon" ∧
        (contaminants.caustic = true ∨ contaminants.h2s = true ∨
          contaminants.amines = true ∨ contaminants.ammonia = true ∨
          contaminants.abrasive = true)) := by
    constructor
    · rintro ⟨hfg, hc⟩
      refine ⟨hfg, ?_⟩
      simp [anyContaminants] at hc
      tauto
    · rintro ⟨hfg, hc⟩
      refine ⟨hfg, ?_⟩
      simp [anyContaminants]
      tauto
  unfold get_arrangement arrangementRulesSpec
  rw [if_neg (by simp [truthy] : ¬truthy PyVal.none = true)]
  by_cases h1 : fluid_group = "Nonhydrocarbon" ∧ anyContaminants contaminants = true
  · rw [if_pos h1, if_pos (e1.mp h1)]
  · rw [if_neg h1, if_neg (fun hp => h1 (e1.mpr hp))]
    split_ifs <;> rfl

/-- C10: with no mandated arrangement, `get_arrangement` never returns 2:
every flag of the Arrangement-2 rule already fires the Arrangement-3 rule,
so the result is always 1 or 3. -/
theorem arrangement_two_unreachable_without_mandate (fluid_group : String)
    (exposure_hazard vapor_risk environmental_limits solids polymerizing
      poor_lubricity low_density high_vapor_pressure : Bool)
    (temp : ℚ) (zero_leakage : Bool) (contaminants : Contaminants) :
    get_arrangement fluid_group exposure_hazard vapor_risk environmental_limits
        solids polymerizing poor_lubricity low_density high_vapor_pressure
        temp zero_leakage PyVal.none contaminants = PyVal.int 1 ∨
    get_arrangement fluid_group exposure_hazard vapor_risk environmental_limits
        solids polymerizing poor_lubricity low_density high_vapor_pressure
        temp zero_leakage PyVal.none contaminants = PyVal.int 3 := by
  unfold get_arrangement
  rw [if_neg (by simp [truthy] : ¬truthy PyVal.none = true)]
  split_ifs with hA hB hC
  · right; rfl
  · right; rfl
  · exfalso
    tauto
  · left; rfl

/-- C4: whenever the mandated arrangement is a truthy value (in particular
any of the ints 1, 2, 3), `get_arrangement` returns it unchanged,
regardless of fluid group, every flag, temperature and the contaminant
set; specialised to a mandate of 2, the result is 2. -/
theorem mandated_arrangement_overrides (fluid_group : String)
    (exposure_hazard vapor_risk environmental_limits solids polymerizing
      poor_lubricity low_density high_vapor_pressure : Bool)
    (temp : ℚ) (zero_leakage : Bool) (mandated_arrangement : PyVal)
    (contaminants : Contaminants) :
    (truthy mandated_arrangement = true →
      get_arrangement fluid_group exposure_hazard vapor_risk
          environmental_limits solids polymerizing poor_lubricity low_density
          high_vapor_pressure temp zero_leakage mandated_arrangement
          contaminants = mandated_arrangement) ∧
    get_arrangement fluid_group exposure_hazard vapor_risk environmental_limits
        solids polymerizing poor_lubricity low_density high_vapor_pressure
        temp zero_leakage (PyVal.int 2) contaminants = PyVal.int 2 := by
  constructor
  · intro h
    simp [get_arrangement, h]
  · simp [get_arrangement, truthy]

/-- Witness for C4 at a concrete input with every flag raised, a
contaminated fluid and a high temperature: the mandate of 2 still wins. -/
theorem mandated_arrangement_overrides_witness :
    truthy (PyVal.int 2) = true ∧
    get_arrangement "Nonhydrocarbon" true true true true true true true true
      300 true (PyVal.int 2) ⟨true, true, true, true, true⟩ = PyVal.int 2 :=
  ⟨by decide,
   (mandated_arrangement_overrides "Nonhydrocarbon" true true true true true
     true true true 300 true (PyVal.int 2) ⟨true, true, true, true, true⟩).1
     (by decide)⟩

/-- Unrolling of the three-step search loop inside `get_seal_category`. -/
theorem get_seal_category_eq (p t s : ℚ) :
    get_seal_category p t s =
      (if withinCat 1 p t s = true then some 1
       else if withinCat 2 p t s = true then some 2
       else if withinCat 3 p t s = true then some 3
       else none) := by
  unfold get_seal_category
  cases h1 : withinCat 1 p t s <;> cases h2 : withinCat 2 p t s <;>
    cases h3 : withinCat 3 p t s <;> simp [List.find?, h1, h2, h3]

/-- The tier-1 loop-body test spelt out as inequalities. -/
theorem withinCat_one_iff (p t s : ℚ) :
    withinCat 1 p t s = true ↔ p ≤ 20 ∧ t ≤ 260 ∧ s ≤ 20 := by
  have h : withinCat 1 p t s =
      (decide (p ≤ 20) && decide (t ≤ 260) && decide (s ≤ 20)) := rfl
  rw [h]
  simp [and_assoc]

/-- The tier-2 loop-body test spelt out as inequalities. -/
theorem withinCat_two_iff (p t s : ℚ) :
    withinCat 2 p t s = true ↔ p ≤ 40 ∧ t ≤ 400 ∧ s ≤ 25 := by
  have h : withinCat 2 p t s =
      (decide (p ≤ 40) && decide (t ≤ 400) && decide (s ≤ 25)) := rfl
  rw [h]
  simp [and_assoc]

/-- The tier-3 loop-body test spelt out as inequalities. -/
theorem withinCat_three_iff (p t s : ℚ) :
    withinCat 3 p t s = true ↔ p ≤ 100 ∧ t ≤ 400 ∧ s ≤ 25 := by
  have h : withinCat 3 p t s =
      (decide (p ≤ 100) && decide (t ≤ 400) && decide (s ≤ 25)) := rfl
  rw [h]
  simp [and_assoc]

/-- C1: `get_seal_category` returns the first tier of 1, 2, 3 whose
pressure, temperature and speed limits are all respected; any input within
the tier-1 limits yields category 1, and the result is `none` exactly when
the input exceeds the tier-3 envelope (pressure above 100, temperature
above 400 or speed above 25). -/
theorem seal_category_first_tier (p t s : ℚ) :
    ((p ≤ 20 ∧ t ≤ 260 ∧ s ≤ 20) → get_seal_category p t s = some 1) ∧
    (∀ c, get_seal_category p t s = some c →
      withinCat c p t s = true ∧
        ∀ d, d ∈ [1, 2, 3] → d < c → withinCat d p t s = false) ∧
    (get_seal_category p t s = none ↔ 100 < p ∨ 400 < t ∨ 25 < s) := by
  have e := get_seal_category_eq p t s
  by_cases h1 : withinCat 1 p t s = true
  · rw [if_pos h1] at e
    obtain ⟨hp, ht, hs⟩ := (withinCat_one_iff p t s).mp h1
    refine ⟨fun _ => e, ?_, ?_⟩
    · intro c hc
      rw [e] at hc
      injection hc with hc1
      subst hc1
      refine ⟨h1, ?_⟩
      intro d hd hdc
      exfalso
      simp at hd
      omega
    · rw [e]
      constructor
      · intro h
        exact absurd h (by simp)
      · intro hor
        exfalso
        rcases hor with h | h | h <;> linarith
  · have h1f : withinCat 1 p t s = false := by
      cases hb : withinCat 1 p t s
      · rfl
      · exact absurd hb h1
    rw [if_neg h1] at e
    by_cases h2 : withinCat 2 p t s = true
    · rw [if_pos h2] at e
      obtain ⟨hp, ht, hs⟩ := (withinCat_two_iff p t s).mp h2
      refine ⟨fun hh => absurd ((withinCat_one_iff p t s).mpr hh) h1, ?_, ?_⟩
      · intro c hc
        rw [e] at hc
        injection hc with hc1
        subst hc1
        refine ⟨h2, ?_⟩
        intro d hd hdc
        simp at hd
        rcases hd with rfl | rfl | rfl
        · exact h1f
        · exact absurd hdc (by omega)
        · exact absurd hdc (by omega)
      · rw [e]
        constructor
        · intro h
          exact absurd h (by simp)
        · intro hor
          exfalso
          rcases hor with h | h | h <;> linarith
    · have h2f : withinCat 2 p t s = false := by
        cases hb : withinCat 2 p t s
        · rfl
        · exact absurd hb h2
      rw [if_neg h2] at e
      by_cases h3 : withinCat 3 p t s = true
      · rw [if_pos h3] at e
        obtain ⟨hp, ht, hs⟩ := (withinCat_three_iff p t s).mp h3
        refine ⟨fun hh => absurd ((withinCat_one_iff p t s).mpr hh) h1, ?_, ?_⟩
        · intro c hc
          rw [e] at hc
          injection hc with hc1
          subst hc1
          refine ⟨h3, ?_⟩
          intro d hd hdc
          simp at hd
          rcases hd with rfl | rfl | rfl
          · exact h1f
          · exact h2f
          · exact absurd hdc (by omega)
        · rw [e]
          constructor
          · intro h
            exact absurd h (by simp)
          · intro hor
            exfalso
            rcases hor with h | h | h <;> linarith
      · rw [if_neg h3] at e
        refine ⟨fun hh => absurd ((withinCat_one_iff p t s).mpr hh) h1, ?_, ?_⟩
        · intro c hc
          rw [e] at hc
          exact absurd hc (by simp)
        · rw [e]
          constructor
          · intro _
            by_contra hcon
            push_neg at hcon
            exact h3 ((withinCat_three_iff p t s).mpr
              ⟨hcon.1, hcon.2.1, hcon.2.2⟩)
          · intro _
            rfl

/-- Witness for C1: the claim's example (150, 450, 30) is out of scope, and
a point inside the tier-1 envelope classifies as category 1. -/
theorem seal_category_first_tier_witness :
    get_seal_category 150 450 30 = none ∧ get_seal_category 10 100 10 = some 1 :=
  ⟨(seal_category_first_tier 150 450 30).2.2.mpr (by left; norm_num),
   (seal_category_first_tier 10 100 10).1
     ⟨by norm_num, by norm_num, by norm_num⟩⟩

/-- A concrete UI state: benign operating point, hydrocarbon fluid, every
checkbox clear, and the mandate selectbox set to "Arrangement 2". -/
def mandatedInput : Inputs :=
  { pressure := 15, temperature := 100, speed := 10,
    fluid_type := "Hydrocarbon", is_flashing := false,
    hazardous := false, toxic := false, flammable := false,
    abrasive := false, polymerizing := false, poor_lubricity := false,
    caustic := false, h2s := false, amines := false, ammonia := false,
    exposure_hazard := false, vapor_risk := false,
    environmental_limits := false, monitoring_required := false,
    zero_leakage := false, low_density := false,
    high_vapor_pressure := false,
    mandated_arrangement := PyVal.str "Arrangement 2" }

/-- C5 (refuted by the code): when a mandate is supplied through the UI,
the selectbox hands `get_arrangement` the display string, which is truthy
and returned as-is, so the recommendation's arrangement is the string
"Arrangement 2" and not one of the ints 1, 2, 3; the barrier-fluid step at
line 182 then skips the recommendation even though an arrangement was
mandated. -/
theorem mandated_string_escapes_arrangement_domain :
    arrangementOf mandatedInput = PyVal.str "Arrangement 2" ∧
    arrangementOf mandatedInput ≠ PyVal.int 1 ∧
    arrangementOf mandatedInput ≠ PyVal.int 2 ∧
    arrangementOf mandatedInput ≠ PyVal.int 3 ∧
    barrierFluidOf mandatedInput = "Not required" := by
  decide

/-- C6: the arrangement computed by the wired-up program depends only on
the inputs the spec's contract lists — fluid group, the safety and
fluid-behaviour flags, the contaminant set, temperature, zero-leakage and
the mandate.  The remaining widget values (pressure, speed, the hazardous,
toxic, flammable and monitoring checkboxes) cannot influence it, and no
state outside the input record exists. -/
theorem arrangement_depends_only_on_declared_inputs (i j : Inputs)
    (hfg : fluidGroupOf i = fluidGroupOf j)
    (hex : i.exposure_hazard = j.exposure_hazard)
    (hvr : i.vapor_risk = j.vapor_risk)
    (hel : i.environmental_limits = j.environmental_limits)
    (hab : i.abrasive = j.abrasive)
    (hpo : i.polymerizing = j.polymerizing)
    (hpl : i.poor_lubricity = j.poor_lubricity)
    (hld : i.low_density = j.low_density)
    (hhv : i.high_vapor_pressure = j.high_vapor_pressure)
    (hte : i.temperature = j.temperature)
    (hzl : i.zero_leakage = j.zero_leakage)
    (hca : i.caustic = j.caustic)
    (hh2 : i.h2s = j.h2s)
    (ham : i.amines = j.amines)
    (hamm : i.ammonia = j.ammonia)
    (hma : i.mandated_arrangement = j.mandated_arrangement) :
    arrangementOf i = arrangementOf j := by
  have hco : contaminantsOf i = contaminantsOf j := by
    unfold contaminantsOf
    rw [hca, hh2, ham, hamm, hab]
  unfold arrangementOf
  rw [hfg, hex, hvr, hel, hab, hpo, hpl, hld, hhv, hte, hzl, hma, hco]

/-- A concrete UI state with every flag clear: flashing hydrocarbon at a
benign operating point, no mandate. -/
def inputA : Inputs :=
  { pressure := 15, temperature := 100, speed := 10,
    fluid_type := "Hydrocarbon", is_flashing := true,
    hazardous := false, toxic := false, flammable := false,
    abrasive := false, polymerizing := false, poor_lubricity := false,
    caustic := false, h2s := false, amines := false, ammonia := false,
    exposure_hazard := false, vapor_risk := false,
    environmental_limits := false, monitoring_required := false,
    zero_leakage := false, low_density := false,
    high_vapor_pressure := false, mandated_arrangement := PyVal.none }

/-- `inputA` with the four widgets outside the arrangement contract
toggled and different pressure and speed. -/
def inputB : Inputs :=
  { inputA with
    hazardous := true, toxic := true, flammable := true,
    monitoring_required := true, pressure := 90, speed := 24 }

/-- Witness for C6: two UI states that differ in pressure, speed and the
four flags outside the contract yield the same arrangement. -/
theorem arrangement_depends_only_on_declared_inputs_witness :
    arrangementOf inputA = arrangementOf inputB :=
  arrangement_depends_only_on_declared_inputs inputA inputB rfl rfl rfl rfl
    rfl rfl rfl rfl rfl rfl rfl rfl rfl rfl rfl rfl

/-- Counterexample to C7 as stated: at a benign all-clear input the
program's arrangement is 1, yet the barrier-fluid output is the
capitalised literal "Not required" of src/app.py line 182, not the
claimed lowercase literal "not required". -/
theorem barrier_literal_counterexample :
    arrangementOf inputA = PyVal.int 1 ∧
    barrierFluidOf inputA ≠ "not required" := by
  decide

/-- C7 as amended: the barrier-fluid recommendation is computed (differs
from the fallback literal) only when the arrangement is the int 2 or 3,
and when the arrangement is 1 the output is exactly the code's literal
"Not required" (capital N). -/
theorem barrier_only_for_arrangement_2_or_3 (i : Inputs) :
    (barrierFluidOf i ≠ "Not required" →
      arrangementOf i = PyVal.int 2 ∨ arrangementOf i = PyVal.int 3) ∧
    (arrangementOf i = PyVal.int 1 → barrierFluidOf i = "Not required") := by
  constructor
  · intro h
    by_contra hc
    apply h
    unfold barrierFluidOf
    rw [if_neg hc]
  · intro h1
    unfold barrierFluidOf
    rw [h1, if_neg (by decide :
      ¬(PyVal.int 1 = PyVal.int 2 ∨ PyVal.int 1 = PyVal.int 3))]

/-- Witness for C7's amended theorem at a concrete arrangement-1 input. -/
theorem barrier_only_for_arrangement_2_or_3_witness :
    barrierFluidOf inputA = "Not required" :=
  (barrier_only_for_arrangement_2_or_3 inputA).2 (by decide)

/-- Counterexample to C8 as stated: the code's low-band hydrocarbon
recommendation is the literal "Mineral oil (2-10 cSt at operating temp)",
not the claim's quoted text. -/
theorem barrier_text_counterexample :
    get_barrier_fluid_recommendation "Hydrocarbon" "Low" ≠
      "Mineral oil, 2–10 cSt at operating temperature" := by
  decide

/-- C8 as amended: with the temperature band computed as at src/app.py
line 181 (below 70 Low, below 150 Medium, otherwise High), a hydrocarbon
fluid is mapped by band to the code's mineral-oil, paraffin-oil and
synthetic-oil literals, and a nonhydrocarbon fluid is mapped to the
water/ethylene-glycol literal for every band string. -/
theorem barrier_fluid_band_mapping (t : ℚ) :
    get_barrier_fluid_recommendation "Hydrocarbon" (tempRangeOf t) =
      (if t < 70 then "Mineral oil (2-10 cSt at operating temp)"
       else if t < 150 then "Paraffin-based high purity oil"
       else "Synthetic-based oil") ∧
    ∀ r : String, get_barrier_fluid_recommendation "Nonhydrocarbon" r =
      "Water/ethylene glycol mixture (commercial antifreeze prohibited)" := by
  constructor
  · have hH : strIn "Hydrocarbon" "Hydrocarbon" = true := by decide
    have hML : ("Medium" : String) ≠ "Low" := by decide
    have hHL : ("High" : String) ≠ "Low" := by decide
    have hHM : ("High" : String) ≠ "Medium" := by decide
    by_cases h70 : t < 70
    · simp [get_barrier_fluid_recommendation, tempRangeOf, h70, hH]
    · by_cases h150 : t < 150
      · simp [get_barrier_fluid_recommendation, tempRangeOf, h70, h150, hH,
          hML]
      · simp [get_barrier_fluid_recommendation, tempRangeOf, h70, h150, hH,
          hHL, hHM]
  · intro r
    have hN : strIn "Hydrocarbon" "Nonhydrocarbon" = false := by decide
    simp [get_barrier_fluid_recommendation, hN]
